import Mathlib

/-!
Verification development for the dear-engine repository (simulation core of a
small arcade game).  The C++ sources are shallowly embedded: machine floats
are modelled by exact rationals, `std::optional` by `Option`,
`std::shared_ptr` identity by natural-number ids, and dereferencing an empty
optional (undefined behaviour in C++) by an `Option`-valued result that is
`none`.  External collaborators (OpenGL, OpenAL, trigonometry of `glm`) are
abstracted into an explicit environment record.
-/

set_option maxHeartbeats 1000000

namespace DearEngine

/-- 2D vector over the rationals, modelling `glm::vec2` (floats modelled
exactly by rationals). -/
structure Vec2 where
  x : ℚ
  y : ℚ
deriving DecidableEq, Repr

/-- Componentwise addition of vectors, `glm` operator +. -/
def Vec2.add (a b : Vec2) : Vec2 := ⟨a.x + b.x, a.y + b.y⟩

/-- Scalar multiplication, `glm` operator * with a scalar. -/
def Vec2.smul (s : ℚ) (a : Vec2) : Vec2 := ⟨s * a.x, s * a.y⟩

/-- Componentwise minimum, `glm::min`. -/
def Vec2.cmin (a b : Vec2) : Vec2 := ⟨min a.x b.x, min a.y b.y⟩

/-- Componentwise maximum, `glm::max`. -/
def Vec2.cmax (a b : Vec2) : Vec2 := ⟨max a.x b.x, max a.y b.y⟩

/-- Environment abstracting the external collaborators of the simulation
core: `cosd`/`sind` are cosine and sine of an angle given in degrees (used
by `Transform::matrix` through `glm::rotate`), `sinr` is sine of an angle in
radians (used by the enemy custom update function `std::sin(time)`), and
`playing` answers the OpenAL query "is source id currently playing" used by
the sound-gated erase sweep. -/
structure Env where
  cosd : ℚ → ℚ
  sind : ℚ → ℚ
  sinr : ℚ → ℚ
  playing : ℕ → Bool

/-- Transform component (src/unnamed/part_009 `struct Transform`): 2D
position, non-uniform scale and rotation in degrees.  C++ field defaults:
position 0, scale 0.5, rotation 0. -/
structure Transform where
  position : Vec2 := ⟨0, 0⟩
  scale : Vec2 := ⟨1/2, 1/2⟩
  rotation : ℚ := 0
deriving DecidableEq, Repr

/-- Action of the world matrix `Transform::matrix()` = translate * rotate *
scale on a point `(p, 0, 1)`.  Multiplying the 4x4 product out gives
`position + R(rotation) * (scale ⊙ p)` where `R` is the 2D rotation matrix;
the trigonometric functions come from the environment. -/
def Transform.applyPoint (env : Env) (t : Transform) (p : Vec2) : Vec2 :=
  let sx := t.scale.x * p.x
  let sy := t.scale.y * p.y
  ⟨t.position.x + (env.cosd t.rotation * sx - env.sind t.rotation * sy),
   t.position.y + (env.sind t.rotation * sx + env.cosd t.rotation * sy)⟩

/-- Axis-aligned bounding box (src/unnamed/part_006 `struct Aabb`):
min/max corners in local space.  C++ defaults are min = -1, max = +1. -/
structure Aabb where
  min : Vec2 := ⟨-1, -1⟩
  max : Vec2 := ⟨1, 1⟩
deriving DecidableEq, Repr

/-- `Aabb::transform(matrix)` (src/unnamed/part_006): map both corners
through the owning entity's world matrix and re-derive min/max
componentwise (handles scale sign flips). -/
def Aabb.transform (env : Env) (t : Transform) (box : Aabb) : Aabb :=
  let a := Transform.applyPoint env t box.min
  let b := Transform.applyPoint env t box.max
  ⟨Vec2.cmin a b, Vec2.cmax a b⟩

/-- `collision(a, b)` (src/unnamed/part_010 lines 31-37): AABB overlap test,
all four comparisons strict. -/
def collision (a b : Aabb) : Bool :=
  a.min.x < b.max.x &&
  a.max.x > b.min.x &&
  a.min.y < b.max.y &&
  a.max.y > b.min.y

/-- One frame of a sprite animation (src/inmath/src/sprite.hpp
`struct SpriteFrame`): duration in seconds plus the EBO draw range. -/
structure SpriteFrame where
  duration : ℚ
  ebo_offset : ℕ
  ebo_count : ℕ
deriving DecidableEq, Repr

/-- Sprite animation state (src/inmath/src/sprite.hpp
`struct SpriteAnimation`). -/
structure SpriteAnimation where
  last_transit_dt : ℚ
  curr_frame_idx : ℕ
  frames : List SpriteFrame
  curr_cycle_count : ℕ
  max_cycles : ℕ
deriving DecidableEq, Repr

/-- Duration of the current frame.  The C++ indexes `frames[curr_frame_idx]`
unchecked; out-of-range access (undefined behaviour in C++) is totalised
with duration 0, and every theorem below carries the in-range invariant. -/
def SpriteAnimation.currDuration (a : SpriteAnimation) : ℚ :=
  ((a.frames.get? a.curr_frame_idx).map SpriteFrame.duration).getD 0

/-- `SpriteAnimation::update_frame(dt)` (src/inmath/src/sprite.hpp lines
36-46): accumulate `dt`; if the accumulator meets or exceeds the current
frame's duration, subtract the duration (carrying the remainder) and step
to the next frame, wrapping to 0 and counting a completed cycle. -/
def SpriteAnimation.update_frame (a : SpriteAnimation) (dt : ℚ) : SpriteAnimation :=
  let last := a.last_transit_dt + dt
  if a.currDuration ≤ last then
    let idx := a.curr_frame_idx + 1
    if idx = a.frames.length then
      { a with last_transit_dt := last - a.currDuration,
               curr_frame_idx := 0,
               curr_cycle_count := a.curr_cycle_count + 1 }
    else
      { a with last_transit_dt := last - a.currDuration, curr_frame_idx := idx }
  else
    { a with last_transit_dt := last }

/-- `SpriteAnimation::expired()` (src/inmath/src/sprite.hpp line 52). -/
def SpriteAnimation.expired (a : SpriteAnimation) : Bool :=
  a.max_cycles > 0 && a.curr_cycle_count ≥ a.max_cycles

/-- Motion component (src/unnamed/part_009): linear velocity and
acceleration. -/
structure Motion where
  velocity : Vec2 := ⟨0, 0⟩
  acceleration : Vec2 := ⟨0, 0⟩
deriving DecidableEq, Repr

/-- 4-component vector, modelling `glm::vec4` (used by colour fields). -/
structure Vec4 where
  x : ℚ
  y : ℚ
  z : ℚ
  w : ℚ
deriving DecidableEq, Repr

/-- Text Format component (src/unnamed/part_009): shared font handle plus
colour and outline parameters; purely render-time data.  The shared
`GLFontRef` is modelled by its id. -/
structure TextFormat where
  font : ℕ
  color : Vec4 := ⟨1, 1, 1, 1⟩
  outline_color : Vec4 := ⟨0, 0, 0, 1⟩
  outline_thickness : ℚ := 1
deriving DecidableEq, Repr

/-- The custom per-tick update closures (`UpdateFn` component) that actually
occur in the repository, as a closed set of behaviour kinds: the background
bounce lambda (src/dear-engine/src/main.cpp lines 250-255) and the enemy
sine sweep lambda (lines 326-328).  `std::function` cannot be stored
directly in the entity record of a well-founded embedding. -/
inductive UpdateKind where
  | backgroundBounce : UpdateKind
  | enemySineSweep : UpdateKind
deriving DecidableEq, Repr

/-- Delay Erasing component (src/unnamed/part_009): marks an entity for
removal by the erase sweep, optionally gated on its sound still playing.
C++ default member initialiser: `sound = true`. -/
structure DelayErasing where
  sound : Bool := true
deriving DecidableEq, Repr

/-- Health component (src/unnamed/part_009, second generation only). -/
structure Health where
  value : ℤ
deriving DecidableEq, Repr

/-- The gameplay actions registered as `TimedAction`s in the repository:
only the auto-fire `spawn_projectile` closure from `key_space_handler`
(src/dear-engine/src/main.cpp lines 838-860). -/
inductive ActionKind where
  | spawnProjectile : ActionKind
deriving DecidableEq, Repr

/-- Timed Action component (src/unnamed/part_009 lines 82-95): elapsed-time
accumulator, duration, and the registered action. -/
structure TimedAction where
  tick_dt : ℚ
  duration : ℚ
  action : ActionKind := .spawnProjectile
deriving DecidableEq, Repr

/-- `TimedAction::update` (src/unnamed/part_009 lines 88-94): accumulate
`dt`; when the accumulator reaches the duration, subtract the duration once
and invoke the action.  The source contains exactly one call of `action` in
the body, so one `update` call invokes the action at most once; the second
component is the number of invocations this call performed. -/
def TimedAction.update (ta : TimedAction) (dt : ℚ) : TimedAction × ℕ :=
  let t := ta.tick_dt + dt
  if ta.duration ≤ t then
    ({ ta with tick_dt := t - ta.duration }, 1)
  else
    ({ ta with tick_dt := t }, 0)

/-- Game Object (src/dear-engine/src/main.cpp `struct GameObject`): a bag of
optional components.  `GLObjectRef`, `GLTextureRef` and `ALSourceRef` are
shared pointers, modelled by optional numeric ids (`glo` is a possibly null
shared pointer, not a `std::optional`, but both model as `Option`).  Field
defaults mirror the C++ default member initialisers. -/
structure GameObject where
  tag : String := "?"
  transform : Transform := {}
  prev_transform : Transform := {}
  motion : Motion := {}
  glo : Option ℕ := none
  texture : Option ℕ := none
  sprite_animation : Option SpriteAnimation := none
  text_fmt : Option TextFormat := none
  update : Option UpdateKind := none
  aabb : Option Aabb := none
  offscreen_destroy : Option Unit := none
  screen_bound : Option Unit := none
  sound : Option ℕ := none
  delay_erasing : Option DelayErasing := none
  health : Option Health := none
deriving DecidableEq, Repr

/-- Object lists of a Scene (src/dear-engine/src/main.cpp
`struct ObjectLists`): entities divided into six layers, in render order. -/
structure ObjectLists where
  background : List GameObject := []
  spaceship : List GameObject := []
  projectile : List GameObject := []
  explosion : List GameObject := []
  gui : List GameObject := []
  text : List GameObject := []
deriving DecidableEq, Repr

/-- `ObjectLists::all_lists()` (src/dear-engine/src/main.cpp line 106): the
six layers in their fixed declaration order. -/
def ObjectLists.allLists (o : ObjectLists) : List (List GameObject) :=
  [o.background, o.spaceship, o.projectile, o.explosion, o.gui, o.text]

/-- Apply a transformation to each layer, in `all_lists` order. -/
def ObjectLists.mapLayers (f : List GameObject → List GameObject) (o : ObjectLists) : ObjectLists :=
  { background := f o.background, spaceship := f o.spaceship,
    projectile := f o.projectile, explosion := f o.explosion,
    gui := f o.gui, text := f o.text }

/-- Apply a fallible transformation to each layer, in `all_lists` order. -/
def ObjectLists.mapLayersM (f : List GameObject → Option (List GameObject)) (o : ObjectLists) :
    Option ObjectLists := do
  let bg ← f o.background
  let ss ← f o.spaceship
  let pr ← f o.projectile
  let ex ← f o.explosion
  let gu ← f o.gui
  let tx ← f o.text
  pure { background := bg, spaceship := ss, projectile := pr,
         explosion := ex, gui := gu, text := tx }

/-- Scene (src/dear-engine/src/main.cpp `struct Scene`). -/
structure Scene where
  objects : ObjectLists := {}
deriving DecidableEq, Repr

/-- The Game state (src/dear-engine/src/main.cpp `struct Game`), restricted
to the fields the simulation step reads or writes.  The C++ `scene`,
`textures` and `audios` are `std::optional`s that `game_update` dereferences
unconditionally; they are modelled as plain fields (the engine never runs
the loop before `game_init` fills them).  The texture and audio caches map
asset paths to resource ids; `next_id` models the backend's allocation of
fresh GL/AL object ids; key handler and key state maps are modelled as an
association list from GLFW key codes. -/
structure Game where
  paused : Bool := false
  hover : Bool := false
  cursor : Vec2 := ⟨0, 0⟩
  window_size : Vec2 := ⟨1280, 720⟩
  viewport_size : Vec2 := ⟨1280, 720⟩
  viewport_offset : Vec2 := ⟨0, 0⟩
  scene : Scene := {}
  timed_actions : List (ℤ × TimedAction) := []
  key_states : List (ℤ × Bool) := []
  screen_aabb : Aabb := { min := ⟨-16/9, -1⟩, max := ⟨16/9, 1⟩ }
  textures : List (String × ℕ) := []
  audios : List (String × ℕ) := []
  next_id : ℕ := 0
deriving DecidableEq, Repr

/-- GLFW key code constants used by the key handlers. -/
def GLFW_KEY_LEFT : ℤ := 263

/-- GLFW key code of the right arrow key. -/
def GLFW_KEY_RIGHT : ℤ := 262

/-- GLFW key code of the up arrow key. -/
def GLFW_KEY_UP : ℤ := 265

/-- GLFW key code of the down arrow key. -/
def GLFW_KEY_DOWN : ℤ := 264

/-- GLFW key code of the space key. -/
def GLFW_KEY_SPACE : ℤ := 32

/-- Modify the player entity, `Scene::player()` = `spaceship.front()`; on an
empty spaceship layer `front()` is undefined behaviour, hence `none`. -/
def Game.playerModify (g : Game) (f : GameObject → GameObject) : Option Game :=
  match g.scene.objects.spaceship with
  | [] => none
  | p :: rest =>
    some { g with scene := { objects := { g.scene.objects with spaceship := f p :: rest } } }

/-- The press/repeat effect of `key_left_right_handler`
(src/dear-engine/src/main.cpp lines 796-799). -/
def pressEffectLR (key : ℤ) (obj : GameObject) : GameObject :=
  let direction : ℚ := if key = GLFW_KEY_LEFT then -1 else 1
  { obj with motion :=
    { obj.motion with
      velocity := ⟨1/2 * direction, obj.motion.velocity.y⟩,
      acceleration := ⟨9/5 * direction, obj.motion.acceleration.y⟩ } }

/-- The press/repeat effect of `key_up_down_handler`
(src/dear-engine/src/main.cpp lines 816-820). -/
def pressEffectUD (key : ℤ) (obj : GameObject) : GameObject :=
  let direction : ℚ := if key = GLFW_KEY_UP then 1 else -1
  { obj with motion :=
    { obj.motion with
      velocity := ⟨obj.motion.velocity.x, 1/2 * direction⟩,
      acceleration := ⟨obj.motion.acceleration.x, 6/5 * direction⟩ } }

/-- The effect of dispatching a synthesized `GLFW_RELEASE` event for `key`
through the key handler map built by `init_key_handlers`
(src/dear-engine/src/main.cpp lines 792-894): arrow keys revert to the
opposite key's movement if that key is still held, otherwise cease movement
on their axis; space erases timed action slot 0; F3/F6/F7 handlers ignore
releases; keys without a handler do nothing. -/
def keyReleaseEffect (g : Game) (key : ℤ) : Option Game :=
  if key = GLFW_KEY_LEFT ∨ key = GLFW_KEY_RIGHT then
    let other := if key = GLFW_KEY_LEFT then GLFW_KEY_RIGHT else GLFW_KEY_LEFT
    if (g.key_states.lookup other).getD false then
      g.playerModify (pressEffectLR other)
    else
      g.playerModify (fun obj =>
        { obj with motion :=
          { obj.motion with
            velocity := ⟨0, obj.motion.velocity.y⟩,
            acceleration := ⟨0, obj.motion.acceleration.y⟩ } })
  else if key = GLFW_KEY_UP ∨ key = GLFW_KEY_DOWN then
    let other := if key = GLFW_KEY_UP then GLFW_KEY_DOWN else GLFW_KEY_UP
    if (g.key_states.lookup other).getD false then
      g.playerModify (pressEffectUD other)
    else
      g.playerModify (fun obj =>
        { obj with motion :=
          { obj.motion with
            velocity := ⟨obj.motion.velocity.x, 0⟩,
            acceleration := ⟨obj.motion.acceleration.x, 0⟩ } })
  else if key = GLFW_KEY_SPACE then
    some { g with timed_actions := g.timed_actions.filter (fun e => e.1 ≠ 0) }
  else
    some g

/-- The release loop of `game_pause` (src/dear-engine/src/main.cpp lines
382-394): walk the key-state entries in order; for each held key, mark it
released and dispatch a synthetic release event.  `i` is the current entry
index and the fuel argument is the (unchanging) number of entries left. -/
def pauseReleaseLoop : Game → ℕ → ℕ → Option Game
  | g, _, 0 => some g
  | g, i, Nat.succ n =>
    match g.key_states.get? i with
    | none => some g
    | some (k, active) =>
      if active then do
        let g := { g with key_states := g.key_states.set i (k, false) }
        let g ← keyReleaseEffect g k
        pauseReleaseLoop g (i + 1) n
      else
        pauseReleaseLoop g (i + 1) n

/-- `game_pause` (src/dear-engine/src/main.cpp lines 377-397): no-op when
already paused; otherwise synthesize a release for every held key, then set
the paused flag. -/
def game_pause (g : Game) : Option Game :=
  if g.paused then some g
  else do
    let g ← pauseReleaseLoop g 0 g.key_states.length
    some { g with paused := true }

/-- `create_explosion` (src/dear-engine/src/main.cpp lines 145-179): build a
projectile-hit explosion entity.  `ASSERT_GET` on the texture / audio cache
lookups aborts the process on a miss, modelled by `none`; the GL object and
AL source created by the backend get fresh ids from the allocation
counter.  Returns the new entity together with the updated game state. -/
def create_explosion (g : Game) : Option (GameObject × Game) := do
  let tex ← g.textures.lookup "Explosion.png"
  let _ ← g.audios.lookup "explosionCrunch_000.wav"
  let gloId := g.next_id
  let sndId := g.next_id + 1
  let obj : GameObject :=
    { tag := "explosion",
      transform := { position := ⟨0, 0⟩, scale := ⟨1/10, 1/10⟩, rotation := 0 },
      prev_transform := { position := ⟨0, 0⟩, scale := ⟨1/10, 1/10⟩, rotation := 0 },
      motion := { velocity := ⟨0, 0⟩, acceleration := ⟨0, 0⟩ },
      texture := some tex,
      glo := some gloId,
      sprite_animation := some
        { last_transit_dt := 0,
          curr_frame_idx := 0,
          frames :=
            [ { duration := 1/25, ebo_offset := 0, ebo_count := 6 },
              { duration := 1/25, ebo_offset := 12, ebo_count := 6 },
              { duration := 1/25, ebo_offset := 24, ebo_count := 6 },
              { duration := 1/25, ebo_offset := 36, ebo_count := 6 },
              { duration := 1/25, ebo_offset := 48, ebo_count := 6 },
              { duration := 3/50, ebo_offset := 60, ebo_count := 6 } ],
          curr_cycle_count := 0,
          max_cycles := 1 },
      sound := some sndId }
  pure (obj, { g with next_id := g.next_id + 2 })

/-- `create_player_projectile` (src/dear-engine/src/main.cpp lines 182-203):
build a player-fired projectile entity. -/
def create_player_projectile (g : Game) : Option (GameObject × Game) := do
  let tex ← g.textures.lookup "Projectile01.png"
  let _ ← g.audios.lookup "laser-14729.wav"
  let gloId := g.next_id
  let sndId := g.next_id + 1
  let obj : GameObject :=
    { tag := "projectile",
      transform := { position := ⟨0, 0⟩, scale := ⟨3/20, 3/20⟩, rotation := 0 },
      prev_transform := { position := ⟨0, 0⟩, scale := ⟨3/20, 3/20⟩, rotation := 0 },
      motion := { velocity := ⟨0, 13/5⟩, acceleration := ⟨0, 0⟩ },
      texture := some tex,
      glo := some gloId,
      aabb := some { min := ⟨-11/100, -19/50⟩, max := ⟨7/100, 3/10⟩ },
      offscreen_destroy := some (),
      sound := some sndId }
  pure (obj, { g with next_id := g.next_id + 2 })

/-- The `spawn_projectile` closure of `key_space_handler`
(src/dear-engine/src/main.cpp lines 838-854): create one projectile object
and push two positioned copies (sharing the same GL object and sound source)
next to the player; reading `player()` on an empty spaceship layer is
undefined.  The final `play()` call is an external audio effect. -/
def spawn_projectile (g : Game) : Option Game := do
  let player ← g.scene.objects.spaceship.head?
  let (projectile, g) ← create_player_projectile g
  let offset : Vec2 := ⟨31/500, 1/8⟩
  let pos1 : Vec2 := ⟨player.transform.position.x - offset.x + 1/200,
                      player.transform.position.y + offset.y⟩
  let t1 := { projectile.transform with position := pos1 }
  let p1 := { projectile with transform := t1, prev_transform := t1 }
  let pos2 : Vec2 := ⟨player.transform.position.x + offset.x,
                      player.transform.position.y + offset.y⟩
  let t2 := { projectile.transform with position := pos2 }
  let p2 := { projectile with transform := t2, prev_transform := t2 }
  pure { g with scene :=
    { objects := { g.scene.objects with
        projectile := g.scene.objects.projectile ++ [p1, p2] } } }

/-- Interpretation of a registered timed action. -/
def runAction (g : Game) : ActionKind → Option Game
  | .spawnProjectile => spawn_projectile g

/-- The timed-action sweep of `game_update` (src/dear-engine/src/main.cpp
lines 401-404): update every registered action's accumulator in entry order,
invoking the action when it fires.  The actions occurring in the repository
never touch `timed_actions` themselves, so the in-place map mutation is
modelled by collecting the updated entries and writing them back at the
end. -/
def updateTimedActions (g : Game) (dt : ℚ) : Option Game :=
  go g.timed_actions [] g
where
  /-- Process the pending entries, accumulating the updated ones. -/
  go : List (ℤ × TimedAction) → List (ℤ × TimedAction) → Game → Option Game
  | [], done, g => some { g with timed_actions := done.reverse }
  | (k, ta) :: rest, done, g =>
    let (ta', fired) := ta.update dt
    if fired = 0 then
      go rest ((k, ta') :: done) g
    else do
      let g ← runAction g ta.action
      go rest ((k, ta') :: done) g

/-- Whether the erase sweep removes this entity on this tick
(src/dear-engine/src/main.cpp lines 407-424): marked entities are erased
unless the mark is sound-gated, the entity carries a sound source, and that
source is still playing. -/
def shouldErase (env : Env) (obj : GameObject) : Bool :=
  match obj.delay_erasing with
  | none => false
  | some de =>
    !(de.sound && (match obj.sound with
                   | some sid => env.playing sid
                   | none => false))

/-- The erase sweep of `game_update`: scan every layer and remove the
entities due for erasure. -/
def eraseSweep (env : Env) (g : Game) : Game :=
  { g with scene :=
    { objects := g.scene.objects.mapLayers
        (fun l => l.filter (fun obj => !shouldErase env obj)) } }

/-- `Cursor::normalized(window, viewport)`
(src/dear-engine/src/core/cursor.hpp): convert the cursor from window
pixel space to the normalized camera space. -/
def cursorNormalized (g : Game) : Vec2 :=
  let aspect := g.window_size.x / g.window_size.y
  let normal_max_width := 2 * aspect
  let normal_max_height : ℚ := 2
  ⟨((g.cursor.x - g.viewport_offset.x) * normal_max_width) / g.viewport_size.x - aspect,
   ((g.cursor.y - g.viewport_offset.y) * (-normal_max_height)) / g.viewport_size.y + 1⟩

/-- The cursor-picking pass of `game_update` (src/dear-engine/src/main.cpp
lines 427-439): build a one-texel AABB around the normalized cursor and set
the frame-scoped hover flag if it overlaps any spaceship's world AABB;
spaceships without an AABB are skipped by an explicit presence check. -/
def cursorPicking (env : Env) (g : Game) : Game :=
  let pixel_size : Vec2 := ⟨1 / g.viewport_size.x, 1 / g.viewport_size.y⟩
  let cursor_pos := cursorNormalized g
  let cursor_aabb : Aabb := { min := cursor_pos, max := cursor_pos.add pixel_size }
  let hover := g.scene.objects.spaceship.any (fun spaceship =>
    match spaceship.aabb with
    | none => false
    | some box => collision cursor_aabb (box.transform env spaceship.transform))
  { g with hover := hover }

/-- The sentinel transform assigned when retiring an entity:
`Transform{ .position = glm::vec2(1000.0f) }` leaves scale and rotation at
their C++ field defaults (0.5 and 0). -/
def sentinelTransform : Transform :=
  { position := ⟨1000, 1000⟩, scale := ⟨1/2, 1/2⟩, rotation := 0 }

/-- Interpretation of the custom per-tick update closures: the background
bounce (src/dear-engine/src/main.cpp lines 250-255) and the enemy sine sweep
(lines 326-328). -/
def applyUpdateKind (env : Env) (k : UpdateKind) (obj : GameObject) (time : ℚ) : GameObject :=
  match k with
  | .backgroundBounce =>
    let obj :=
      if obj.transform.position.x < -3/100 ∨ 3/100 ≤ obj.transform.position.x then
        { obj with motion := { obj.motion with
            velocity := ⟨-obj.motion.velocity.x, obj.motion.velocity.y⟩ } }
      else obj
    if obj.transform.position.y < -3/100 ∨ 3/100 ≤ obj.transform.position.y then
      { obj with motion := { obj.motion with
          velocity := ⟨obj.motion.velocity.x, -obj.motion.velocity.y⟩ } }
    else obj
  | .enemySineSweep =>
    { obj with transform := { obj.transform with
        position := ⟨env.sinr time * (2/5), obj.transform.position.y⟩ } }

/-- The transform-snapshot and motion-integration steps of the per-entity
update (src/dear-engine/src/main.cpp lines 444-448): copy the current
transform into the previous transform, then explicit Euler integration
(`velocity += acceleration*dt; position += velocity*dt`). -/
def updateObjectMotion (dt : ℚ) (obj : GameObject) : GameObject :=
  let obj := { obj with prev_transform := obj.transform }
  let vel := obj.motion.velocity.add (Vec2.smul dt obj.motion.acceleration)
  { obj with
    motion := { obj.motion with velocity := vel },
    transform := { obj.transform with
      position := obj.transform.position.add (Vec2.smul dt vel) } }

/-- The sprite-animation step of the per-entity update
(src/dear-engine/src/main.cpp lines 449-461): advance the animation if
present, and if it has just expired, mark the entity for sound-gated delayed
erasure and teleport it to the sentinel. -/
def updateObjectSprite (dt : ℚ) (obj : GameObject) : GameObject :=
  match obj.sprite_animation with
  | none => obj
  | some an =>
    let an := an.update_frame dt
    let obj := { obj with sprite_animation := some an }
    if an.expired then
      if obj.delay_erasing.isNone then
        { obj with delay_erasing := some { sound := true },
                   transform := sentinelTransform,
                   prev_transform := sentinelTransform }
      else obj
    else obj

/-- The custom-update-callback step of the per-entity update
(src/dear-engine/src/main.cpp line 463). -/
def updateObjectCustom (env : Env) (time : ℚ) (obj : GameObject) : GameObject :=
  match obj.update with
  | none => obj
  | some k => applyUpdateKind env k obj time

/-- The off-screen-destroy step of the per-entity update
(src/dear-engine/src/main.cpp lines 464-471): the optional AABB is
dereferenced without a presence check (`none` on absence); an entity whose
world box no longer overlaps the screen is marked for delayed erasure. -/
def updateObjectOffscreen (env : Env) (screen : Aabb) (obj : GameObject) :
    Option GameObject :=
  if obj.offscreen_destroy.isSome then do
    let box ← obj.aabb
    if collision (box.transform env obj.transform) screen then
      pure obj
    else if obj.delay_erasing.isNone then
      pure { obj with delay_erasing := some {} }
    else
      pure obj
  else
    pure obj

/-- The screen-bound step of the per-entity update
(src/dear-engine/src/main.cpp lines 472-479): clamp the position into the
screen AABB on both axes independently. -/
def updateObjectScreenBound (screen : Aabb) (obj : GameObject) : GameObject :=
  if obj.screen_bound.isSome then
    let px := obj.transform.position.x
    let py := obj.transform.position.y
    let px := if px < screen.min.x then screen.min.x else px
    let py := if py < screen.min.y then screen.min.y else py
    let px := if screen.max.x < px then screen.max.x else px
    let py := if screen.max.y < py then screen.max.y else py
    { obj with transform := { obj.transform with position := ⟨px, py⟩ } }
  else
    obj

/-- The per-entity update of one object (src/dear-engine/src/main.cpp lines
443-480): transform snapshot and motion, sprite animation, custom callback,
off-screen destroy (the only fallible step) and screen bound, in source
order. -/
def updateObject (env : Env) (screen : Aabb) (dt time : ℚ) (obj : GameObject) :
    Option GameObject :=
  (updateObjectOffscreen env screen
      (updateObjectCustom env time (updateObjectSprite dt (updateObjectMotion dt obj)))).map
    (updateObjectScreenBound screen)

/-- The update-all-objects pass of `game_update`
(src/dear-engine/src/main.cpp lines 442-481). -/
def updateAllObjects (env : Env) (g : Game) (dt time : ℚ) : Option Game := do
  let objects ← g.scene.objects.mapLayersM
    (fun l => l.mapM (updateObject env g.screen_aabb dt time))
  pure { g with scene := { objects := objects } }

/-- Replace the projectile at index `j`. -/
def Game.setProjectile (g : Game) (j : ℕ) (obj : GameObject) : Game :=
  { g with scene := { objects := { g.scene.objects with
      projectile := g.scene.objects.projectile.set j obj } } }

/-- Replace the spaceship at index `k`. -/
def Game.setSpaceship (g : Game) (k : ℕ) (obj : GameObject) : Game :=
  { g with scene := { objects := { g.scene.objects with
      spaceship := g.scene.objects.spaceship.set k obj } } }

/-- Append an entity to the explosion layer. -/
def Game.pushExplosion (g : Game) (obj : GameObject) : Game :=
  { g with scene := { objects := { g.scene.objects with
      explosion := g.scene.objects.explosion ++ [obj] } } }

/-- One iteration of the projectile-spaceship collision system
(src/dear-engine/src/main.cpp lines 489-514) for spaceship index `k` and
projectile index `j`: both entities' optional AABBs are dereferenced
unconditionally; on overlap, spawn an explosion at the projectile's
position, mark the projectile for sound-gated delayed erasure and teleport
it to the sentinel, then decrement the spaceship's health through another
unchecked optional dereference, retiring the spaceship and pausing the game
when it reaches zero.  Note the source assigns the spaceship's
`prev_transform` from `projectile.transform`, read after the teleport. -/
def projectileHit (env : Env) (g : Game) (k j : ℕ) : Option Game := do
  let spaceship ← g.scene.objects.spaceship.get? k
  let projectile ← g.scene.objects.projectile.get? j
  let pbox ← projectile.aabb
  let sbox ← spaceship.aabb
  let projectile_aabb := pbox.transform env projectile.transform
  let spaceship_aabb := sbox.transform env spaceship.transform
  if collision projectile_aabb spaceship_aabb then do
    let (explosion, g) ← create_explosion g
    let t := { explosion.transform with position := projectile.transform.position }
    let explosion := { explosion with transform := t, prev_transform := t }
    let g := g.pushExplosion explosion
    let (g, projectile) :=
      if projectile.delay_erasing.isNone then
        let projectile := { projectile with
          delay_erasing := some { sound := true },
          transform := sentinelTransform,
          prev_transform := sentinelTransform }
        (g.setProjectile j projectile, projectile)
      else
        (g, projectile)
    let h ← spaceship.health
    let hv := h.value - 1
    let spaceship := { spaceship with health := some ⟨hv⟩ }
    if hv ≤ 0 then do
      let spaceship := { spaceship with
        delay_erasing := some {},
        transform := sentinelTransform,
        prev_transform := projectile.transform }
      let g := g.setSpaceship k spaceship
      game_pause g
    else
      pure (g.setSpaceship k spaceship)
  else
    pure g

/-- The projectile-spaceship collision system of `game_update`
(src/dear-engine/src/main.cpp lines 483-517): every non-player spaceship
(the iterator skips `spaceships.begin()`) against every projectile; the
layer lengths are fixed for the duration of the pass (only the explosion
layer grows). -/
def projectileSpaceshipPass (env : Env) (g : Game) : Option Game :=
  ((List.range g.scene.objects.spaceship.length).drop 1).foldlM
    (fun g k =>
      (List.range g.scene.objects.projectile.length).foldlM
        (fun g j => projectileHit env g k j) g)
    g

/-- The player-enemy collision system of `game_update`
(src/dear-engine/src/main.cpp lines 519-538), run only while not paused:
every non-player spaceship against the player; both optional AABBs are
dereferenced unconditionally; on overlap, spawn an explosion at the player's
position, clear the player's render handle and pause the game. -/
def playerEnemyPass (env : Env) (g : Game) : Option Game :=
  if g.paused then
    some g
  else
    ((List.range g.scene.objects.spaceship.length).drop 1).foldlM
      (fun g k => do
        let player ← g.scene.objects.spaceship.get? 0
        let enemy ← g.scene.objects.spaceship.get? k
        let pbox ← player.aabb
        let ebox ← enemy.aabb
        let player_aabb := pbox.transform env player.transform
        let enemy_aabb := ebox.transform env enemy.transform
        if collision player_aabb enemy_aabb then do
          let (explosion, g) ← create_explosion g
          let t := { explosion.transform with position := player.transform.position }
          let explosion := { explosion with transform := t, prev_transform := t }
          let g := g.pushExplosion explosion
          let g := g.setSpaceship 0 { player with glo := none }
          game_pause g
        else
          pure g)
      g

/-- `game_update` (src/dear-engine/src/main.cpp lines 399-539): one fixed
timestep simulation tick — timed actions, erase sweep, cursor picking,
per-entity update, projectile-spaceship collisions, player-enemy
collisions.  The result is `none` when the tick runs into C++ undefined
behaviour (dereferencing an absent optional component or an empty layer's
front element, or an `ASSERT`ed cache miss). -/
def game_update (env : Env) (g : Game) (dt time : ℚ) : Option Game := do
  let g ← updateTimedActions g dt
  let g := eraseSweep env g
  let g := cursorPicking env g
  let g ← updateAllObjects env g dt time
  let g ← projectileSpaceshipPass env g
  playerEnemyPass env g

/-- The catch-up loop of `game_loop` (src/dear-engine/src/main.cpp lines
764-769): `while (update_lag >= timestep) update_lag -= timestep` (each
iteration also runs one simulation tick, which does not feed back into the
lag arithmetic).  The source loop diverges for a non-positive timestep; the
positivity guard (satisfied by the constant `timestep = 1/100`) makes the
Lean function total and agrees with the source whenever `0 < ts`. -/
def catchup (ts lag : ℚ) : ℚ :=
  if h : 0 < ts ∧ ts ≤ lag then catchup ts (lag - ts) else lag
termination_by (⌊lag / ts⌋).toNat
decreasing_by
  have hts : 0 < ts := h.1
  have hle : ts ≤ lag := h.2
  have hne : ts ≠ 0 := ne_of_gt hts
  have hdiv : (lag - ts) / ts = lag / ts - 1 := by
    rw [sub_div, div_self hne]
  have hfloor : ⌊(lag - ts) / ts⌋ = ⌊lag / ts⌋ - 1 := by
    rw [hdiv, Int.floor_sub_one]
  have hone : (1 : ℚ) ≤ lag / ts := (one_le_div hts).mpr hle
  have hpos : (1 : ℤ) ≤ ⌊lag / ts⌋ := by
    exact_mod_cast Int.le_floor.mpr (by exact_mod_cast hone)
  rw [hfloor]
  omega

/-- One iteration of the frame loop's timing logic
(src/dear-engine/src/main.cpp lines 758-778): accumulate the wall-clock
delta into the update lag, run the catch-up loop, and form the interpolation
factor `alpha = update_lag / timestep` passed to `game_render`. -/
def frameAlpha (ts prevLag loopTime : ℚ) : ℚ :=
  catchup ts (prevLag + loopTime) / ts

/-- The texture cache of the first generation
(src/inmath/src/res_manager.hpp `class Textures`): a path-keyed map of
shared texture handles.  Handle identity (two `GLTextureRef`s pointing at
the same `GLTexture`) is modelled by a numeric id allocated for each
`make_shared` wrap. -/
structure TexturesCache where
  map : List (String × ℕ) := []
  next_handle : ℕ := 0
deriving DecidableEq, Repr

/-- `Textures::get_or_load(texpath, args...)` (src/inmath/src/res_manager.hpp
lines 628-639): on a cache hit return the existing shared handle; on a miss
invoke the injected loader (`load_rgba_texture`, abstracted as a function
from path to success/failure), returning "not found" without inserting on
loader failure, and wrapping/inserting/returning on success.  The result
carries the possibly-updated cache and the number of loader invocations
this call made. -/
def TexturesCache.get_or_load (loader : String → Option Unit) (c : TexturesCache)
    (texpath : String) : Option ℕ × TexturesCache × ℕ :=
  match c.map.lookup texpath with
  | some h => (some h, c, 0)
  | none =>
    match loader texpath with
    | none => (none, c, 1)
    | some _ =>
      let h := c.next_handle
      (some h, { map := (texpath, h) :: c.map, next_handle := c.next_handle + 1 }, 1)

/-- The order in which the update passes of `game_update` visit the
entities (src/dear-engine/src/main.cpp lines 442-443): layers in
`all_lists()` declaration order, each layer front to back of its vector. -/
def updateIterOrder (o : ObjectLists) : List GameObject :=
  o.allLists.flatten

/-- The per-layer draw loop of `game_render` (src/dear-engine/src/main.cpp
lines 663-665): iterate the layer in reverse (`rbegin` to `rend`) and stop
at the first entity whose render handle is null — the loop condition is
`obj != rend && obj->glo`. -/
def drawnLayer (l : List GameObject) : List GameObject :=
  l.reverse.takeWhile (fun obj => obj.glo.isSome)

/-- The full draw order of `game_render` (src/dear-engine/src/main.cpp lines
663-688): layers in `all_lists()` order, each drawn by its per-layer loop. -/
def renderDrawOrder (o : ObjectLists) : List GameObject :=
  (o.allLists.map drawnLayer).flatten

/-- Concrete environment for scenes whose transforms all have rotation 0:
`cosd`/`sind`/`sinr` agree with cosine and sine at the only angle such a
scene ever evaluates them (0 degrees / 0 radians), and no sound is
playing. -/
def envRot0 : Env :=
  { cosd := fun _ => 1, sind := fun _ => 0, sinr := fun _ => 0, playing := fun _ => false }

/-- The player spaceship of the end-to-end scenario, with the component
values `game_init` gives it (src/dear-engine/src/main.cpp lines 258-292):
position (0, -0.7), scale 0.1, the player AABB and the screen-bound marker
(the looping thrust animation, texture and GL ids are irrelevant to the
scenario and elided where optional). -/
def playerC1 : GameObject :=
  { tag := "player",
    transform := { position := ⟨0, -7/10⟩, scale := ⟨1/10, 1/10⟩, rotation := 0 },
    prev_transform := { position := ⟨0, -7/10⟩, scale := ⟨1/10, 1/10⟩, rotation := 0 },
    glo := some 0,
    aabb := some { min := ⟨-4/5, -7/10⟩, max := ⟨41/50, 7/10⟩ },
    screen_bound := some () }

/-- The enemy spaceship of the end-to-end scenario, as built by `game_init`
(src/dear-engine/src/main.cpp lines 294-331): position (0, +0.5), scale
(0.08, -0.08), its AABB and 10 health. -/
def enemyC1 : GameObject :=
  { tag := "enemy",
    transform := { position := ⟨0, 1/2⟩, scale := ⟨2/25, -2/25⟩, rotation := 0 },
    prev_transform := { position := ⟨0, 1/2⟩, scale := ⟨2/25, -2/25⟩, rotation := 0 },
    glo := some 1,
    aabb := some { min := ⟨-11/20, -1/2⟩, max := ⟨11/20, 1/2⟩ },
    health := some ⟨10⟩ }

/-- A live projectile spawned directly on top of the enemy at (0, 0.5), with
the component values of `create_player_projectile`: scale 0.15, velocity
(0, 2.6), the projectile AABB, the off-screen-destroy marker and an attached
sound source. -/
def projC1 : GameObject :=
  { tag := "projectile",
    transform := { position := ⟨0, 1/2⟩, scale := ⟨3/20, 3/20⟩, rotation := 0 },
    prev_transform := { position := ⟨0, 1/2⟩, scale := ⟨3/20, 3/20⟩, rotation := 0 },
    motion := { velocity := ⟨0, 13/5⟩, acceleration := ⟨0, 0⟩ },
    glo := some 2,
    aabb := some { min := ⟨-11/100, -19/50⟩, max := ⟨7/100, 3/10⟩ },
    offscreen_destroy := some (),
    sound := some 3 }

/-- The end-to-end scenario game state: player at (0,-0.7), enemy at
(0,+0.5), one projectile on top of the enemy, the explosion assets loaded
in the caches (as `game_init` loads them), nothing marked for erasure, no
timed actions pending, game unpaused. -/
def gameC1 : Game :=
  { scene := { objects := { spaceship := [playerC1, enemyC1], projectile := [projC1] } },
    textures := [("Explosion.png", 1)],
    audios := [("explosionCrunch_000.wav", 2)],
    next_id := 10 }

/-- The explosion entity the collision pass spawns in the scenario:
`create_explosion` output positioned at the projectile's position at
collision time, (0, 0.5 + 2.6·dt) = (0, 263/500) for dt = 1/100. -/
def explC1 : GameObject :=
  { tag := "explosion",
    transform := { position := ⟨0, 263/500⟩, scale := ⟨1/10, 1/10⟩, rotation := 0 },
    prev_transform := { position := ⟨0, 263/500⟩, scale := ⟨1/10, 1/10⟩, rotation := 0 },
    texture := some 1,
    glo := some 10,
    sprite_animation := some
      { last_transit_dt := 0,
        curr_frame_idx := 0,
        frames :=
          [ { duration := 1/25, ebo_offset := 0, ebo_count := 6 },
            { duration := 1/25, ebo_offset := 12, ebo_count := 6 },
            { duration := 1/25, ebo_offset := 24, ebo_count := 6 },
            { duration := 1/25, ebo_offset := 36, ebo_count := 6 },
            { duration := 1/25, ebo_offset := 48, ebo_count := 6 },
            { duration := 3/50, ebo_offset := 60, ebo_count := 6 } ],
        curr_cycle_count := 0,
        max_cycles := 1 },
    sound := some 11 }

/-- The expected state after one `game_update` tick of the scenario: the
projectile delay-erase-marked (sound-gated) and teleported to the sentinel,
the explosion spawned at the projectile's pre-teleport position, the enemy's
health at 9, everything else unchanged. -/
def gameC1final : Game :=
  { gameC1 with
    scene := { objects :=
      { spaceship := [playerC1, { enemyC1 with health := some ⟨9⟩ }],
        projectile := [{ projC1 with
          transform := sentinelTransform,
          prev_transform := sentinelTransform,
          delay_erasing := some { sound := true } }],
        explosion := [explC1] } },
    next_id := 12 }

/-- The scenario with the enemy's health component absent: the collision
pass reaches `spaceship->health->value--` with an empty optional. -/
def gameC4 : Game :=
  { gameC1 with scene := { objects :=
      { gameC1.scene.objects with
        spaceship := [playerC1, { enemyC1 with health := none }] } } }

/-- The scenario with the enemy's AABB component absent: the collision pass
reaches `spaceship->aabb->transform(...)` with an empty optional. -/
def gameC9enemyNoAabb : Game :=
  { gameC1 with scene := { objects :=
      { gameC1.scene.objects with
        spaceship := [playerC1, { enemyC1 with aabb := none }] } } }

/-- The scenario with the projectile's AABB component absent (and its
off-screen-destroy marker removed, so the per-entity update pass succeeds):
the collision pass reaches `projectile.aabb->transform(...)` with an empty
optional. -/
def gameC9projNoAabb : Game :=
  { gameC1 with scene := { objects :=
      { gameC1.scene.objects with
        projectile := [{ projC1 with aabb := none, offscreen_destroy := none }] } } }

/-- A projectile far below the enemy, at (0, -1/2): no collision occurs this
tick, so the tick exercises the AABB dereferences of both collision passes
without any gameplay reaction. -/
def projC9far : GameObject :=
  { projC1 with
    transform := { projC1.transform with position := ⟨0, -1/2⟩ },
    prev_transform := { projC1.transform with position := ⟨0, -1/2⟩ } }

/-- The no-collision scenario with the player's AABB component absent: the
player-enemy pass reaches `player->aabb->transform(...)` with an empty
optional. -/
def gameC9playerNoAabb : Game :=
  { gameC1 with scene := { objects :=
      { gameC1.scene.objects with
        spaceship := [{ playerC1 with aabb := none }, enemyC1],
        projectile := [projC9far] } } }

/-- The no-collision scenario with every projectile and spaceship carrying
its AABB: the same tick completes. -/
def gameC9allAabbs : Game :=
  { gameC1 with scene := { objects :=
      { gameC1.scene.objects with projectile := [projC9far] } } }

/-- A background entity with a render handle, for the iteration-order
scenes. -/
def objC7a : GameObject := { tag := "a", glo := some 0 }

/-- A text-layer entity with a render handle, for the iteration-order
scenes. -/
def objC7b : GameObject := { tag := "b", glo := some 1 }

/-- A two-entity scene: one background entity and one text entity, both with
render handles. -/
def objectsC7 : ObjectLists := { background := [objC7a], text := [objC7b] }

/-- The frame index `update_frame` moves to when a transition fires:
`curr_frame_idx + 1`, wrapping to 0 at `frames.size()`. -/
def SpriteAnimation.nextFrameIdx (a : SpriteAnimation) : ℕ :=
  if a.curr_frame_idx + 1 = a.frames.length then 0 else a.curr_frame_idx + 1

/-- Duration of the frame a transition would move to (used to state when a
sequence of updates performs at most one transition). -/
def SpriteAnimation.nextDuration (a : SpriteAnimation) : ℚ :=
  ((a.frames.get? a.nextFrameIdx).map SpriteFrame.duration).getD 0

/-- A two-frame animation with unit frame durations, used to exhibit the
drift between many small `update_frame` steps and a single large one. -/
def animC2 : SpriteAnimation :=
  { last_transit_dt := 0,
    curr_frame_idx := 0,
    frames := [ { duration := 1, ebo_offset := 0, ebo_count := 6 },
                { duration := 1, ebo_offset := 12, ebo_count := 6 } ],
    curr_cycle_count := 0,
    max_cycles := 0 }

/-- A two-frame animation with duration-3 frames, used as the witness input
of the split-step equivalence. -/
def animC2w : SpriteAnimation :=
  { last_transit_dt := 0,
    curr_frame_idx := 0,
    frames := [ { duration := 3, ebo_offset := 0, ebo_count := 6 },
                { duration := 3, ebo_offset := 12, ebo_count := 6 } ],
    curr_cycle_count := 0,
    max_cycles := 0 }

/-! ## Theorems -/

/-- C6: for all AABBs `a` and `b` (with positive extent on both axes, so
that "projection" means a genuine interval), `collision a b` is true iff the
two boxes' open projections intersect on both axes — all four comparisons
strict — and in particular two boxes sharing exactly one edge
(`a.max.x = b.min.x`) report no overlap. -/
theorem collision_strict_overlap_iff (a b : Aabb)
    (hax : a.min.x < a.max.x) (hay : a.min.y < a.max.y)
    (hbx : b.min.x < b.max.x) (hby : b.min.y < b.max.y) :
    (collision a b = true ↔
      ((∃ x : ℚ, (a.min.x < x ∧ x < a.max.x) ∧ (b.min.x < x ∧ x < b.max.x)) ∧
       (∃ y : ℚ, (a.min.y < y ∧ y < a.max.y) ∧ (b.min.y < y ∧ y < b.max.y)))) ∧
    (a.max.x = b.min.x → collision a b = false) := by
  constructor
  · simp only [collision, Bool.and_eq_true, decide_eq_true_eq, gt_iff_lt]
    constructor
    · rintro ⟨⟨⟨h1, h2⟩, h3⟩, h4⟩
      constructor
      · obtain ⟨x, hx1, hx2⟩ := exists_between
          (show max a.min.x b.min.x < min a.max.x b.max.x by
            simp only [max_lt_iff, lt_min_iff]
            exact ⟨⟨hax, h2⟩, ⟨h1, hbx⟩⟩)
        simp only [max_lt_iff, lt_min_iff] at hx1 hx2
        exact ⟨x, ⟨hx1.1, hx2.1⟩, ⟨hx1.2, hx2.2⟩⟩
      · obtain ⟨y, hy1, hy2⟩ := exists_between
          (show max a.min.y b.min.y < min a.max.y b.max.y by
            simp only [max_lt_iff, lt_min_iff]
            exact ⟨⟨hay, h4⟩, ⟨h3, hby⟩⟩)
        simp only [max_lt_iff, lt_min_iff] at hy1 hy2
        exact ⟨y, ⟨hy1.1, hy2.1⟩, ⟨hy1.2, hy2.2⟩⟩
    · rintro ⟨⟨x, ⟨hax1, hax2⟩, ⟨hbx1, hbx2⟩⟩, ⟨y, ⟨hay1, hay2⟩, ⟨hby1, hby2⟩⟩⟩
      exact ⟨⟨⟨lt_trans hax1 hbx2, lt_trans hbx1 hax2⟩, lt_trans hay1 hby2⟩,
        lt_trans hby1 hay2⟩
  · intro hedge
    simp [collision, hedge, lt_self_iff_false]

/-- Witness for C6 at concrete boxes: `a = [0,2]x[0,2]` and
`b = [1,3]x[1,3]` overlap strictly; the open intersections are inhabited. -/
theorem collision_strict_overlap_iff_witness :
    ((0:ℚ) < 2 ∧ (0:ℚ) < 2 ∧ (1:ℚ) < 3 ∧ (1:ℚ) < 3) ∧
    ((collision ⟨⟨0, 0⟩, ⟨2, 2⟩⟩ ⟨⟨1, 1⟩, ⟨3, 3⟩⟩ = true ↔
      ((∃ x : ℚ, ((0:ℚ) < x ∧ x < 2) ∧ ((1:ℚ) < x ∧ x < 3)) ∧
       (∃ y : ℚ, ((0:ℚ) < y ∧ y < 2) ∧ ((1:ℚ) < y ∧ y < 3)))) ∧
     ((2:ℚ) = 1 → collision ⟨⟨0, 0⟩, ⟨2, 2⟩⟩ ⟨⟨1, 1⟩, ⟨3, 3⟩⟩ = false)) :=
  ⟨⟨by norm_num, by norm_num, by norm_num, by norm_num⟩,
   collision_strict_overlap_iff ⟨⟨0, 0⟩, ⟨2, 2⟩⟩ ⟨⟨1, 1⟩, ⟨3, 3⟩⟩
     (by norm_num) (by norm_num) (by norm_num) (by norm_num)⟩

/-- C3 counterexample: a timed action with duration `D = 1` and a zeroed
accumulator, advanced by `2D = 2` in a single `update` call, fires exactly
once — not once per whole multiple of `D` crossed (which would be twice) —
and leaves the un-consumed multiple `D` in the accumulator. -/
theorem timed_action_double_step_fires_once :
    (TimedAction.update ⟨0, 1, .spawnProjectile⟩ 2).2 = 1 ∧
    (TimedAction.update ⟨0, 1, .spawnProjectile⟩ 2).1.tick_dt = 1 ∧
    (TimedAction.update ⟨0, 1, .spawnProjectile⟩ 2).2 ≠ 2 := by
  norm_num [TimedAction.update]

/-- C3 (amended): from a zeroed accumulator, one `update` advancing by
exactly `D` fires the action exactly once and carries remainder 0; one
single `update` advancing by `2D` also fires exactly once (the source
invokes the action at most once per call), leaving the remaining whole
multiple `D` in the accumulator rather than firing again. -/
theorem timed_action_fire_counts (D : ℚ) (a : ActionKind) (hD : 0 < D) :
    TimedAction.update ⟨0, D, a⟩ D = (⟨0, D, a⟩, 1) ∧
    TimedAction.update ⟨0, D, a⟩ (2 * D) = (⟨D, D, a⟩, 1) := by
  constructor
  · simp [TimedAction.update]
  · have hcond : D ≤ 0 + 2 * D := by linarith
    simp only [TimedAction.update, if_pos hcond]
    have harith : 0 + 2 * D - D = D := by ring
    rw [harith]

/-- Witness for C3 at `D = 1`. -/
theorem timed_action_fire_counts_witness :
    (0:ℚ) < 1 ∧
    (TimedAction.update ⟨0, 1, .spawnProjectile⟩ 1 = (⟨0, 1, .spawnProjectile⟩, 1) ∧
     TimedAction.update ⟨0, 1, .spawnProjectile⟩ (2 * 1) = (⟨1, 1, .spawnProjectile⟩, 1)) :=
  ⟨by norm_num, timed_action_fire_counts 1 .spawnProjectile (by norm_num)⟩

/-- C5: starting from a cache that does not hold `key`, if the loader
succeeds on `key` then the first `get_or_load` invokes the loader (count 1)
and returns a handle, and the second call is a pure cache hit (count 0)
returning the very same handle — identity equality of the shared resource —
so the loader runs exactly once across both calls; if the loader fails, the
call returns "not found" and leaves the cache unchanged (no entry
inserted). -/
theorem get_or_load_once (loader : String → Option Unit) (c : TexturesCache) (key : String)
    (hmiss : c.map.lookup key = none) :
    (∀ u, loader key = some u →
      ∃ h c1, TexturesCache.get_or_load loader c key = (some h, c1, 1) ∧
        TexturesCache.get_or_load loader c1 key = (some h, c1, 0)) ∧
    (loader key = none →
      TexturesCache.get_or_load loader c key = (none, c, 1)) := by
  constructor
  · intro u hu
    refine ⟨c.next_handle, ⟨(key, c.next_handle) :: c.map, c.next_handle + 1⟩, ?_, ?_⟩
    · simp [TexturesCache.get_or_load, hmiss, hu]
    · simp [TexturesCache.get_or_load, List.lookup]
  · intro hfail
    simp [TexturesCache.get_or_load, hmiss, hfail]

/-- Witness for C5: an empty cache, key `"t"`, and an always-succeeding
loader. -/
theorem get_or_load_once_witness :
    (List.lookup "t" (TexturesCache.map {}) = none) ∧
    ((∀ u, (fun _ => some ()) "t" = some u →
      ∃ h c1, TexturesCache.get_or_load (fun _ => some ()) {} "t" = (some h, c1, 1) ∧
        TexturesCache.get_or_load (fun _ => some ()) c1 "t" = (some h, c1, 0)) ∧
     ((fun _ => some ()) "t" = none →
      TexturesCache.get_or_load (fun _ => some ()) {} "t" = (none, {}, 1))) :=
  ⟨rfl, get_or_load_once (fun _ => some ()) {} "t" rfl⟩

/-- Shifting `d` into the accumulator before a step is the same as adding it
to the step: `update_frame` only reads the accumulator through the sum
`last_transit_dt + dt`. -/
theorem update_frame_add_shift (a : SpriteAnimation) (d s : ℚ) :
    SpriteAnimation.update_frame { a with last_transit_dt := a.last_transit_dt + d } s =
    SpriteAnimation.update_frame a (d + s) := by
  simp [SpriteAnimation.update_frame, SpriteAnimation.currDuration, add_assoc]

/-- A run of nonnegative steps whose total stays below the current frame's
duration performs no transition: it only accumulates time. -/
theorem foldl_update_frame_no_transition :
    ∀ (dts : List ℚ) (a : SpriteAnimation), (∀ d ∈ dts, 0 ≤ d) →
      a.last_transit_dt + dts.sum < a.currDuration →
      dts.foldl SpriteAnimation.update_frame a =
        { a with last_transit_dt := a.last_transit_dt + dts.sum } := by
  intro dts
  induction dts with
  | nil => intro a _ _; simp
  | cons d rest ih =>
    intro a hnn hlt
    have hrest : ∀ x ∈ rest, 0 ≤ x := fun x hx => hnn x (List.mem_cons_of_mem d hx)
    have hsum : 0 ≤ rest.sum := List.sum_nonneg hrest
    rw [List.sum_cons] at hlt
    have hstep : a.last_transit_dt + d < a.currDuration := by linarith
    have hupd : SpriteAnimation.update_frame a d =
        { a with last_transit_dt := a.last_transit_dt + d } := by
      simp only [SpriteAnimation.update_frame]
      rw [if_neg (not_le.mpr hstep)]
    rw [List.foldl_cons, hupd, ih _ hrest ?side]
    case side =>
      show a.last_transit_dt + d + rest.sum <
        SpriteAnimation.currDuration { a with last_transit_dt := a.last_transit_dt + d }
      have hsame : SpriteAnimation.currDuration
          { a with last_transit_dt := a.last_transit_dt + d } = a.currDuration := rfl
      rw [hsame]
      linarith
    simp [List.sum_cons, add_assoc]

/-- C2 counterexample: `update_frame` advances at most one frame per call,
so splitting drifts as soon as the total spans more than one frame.  With
two unit-duration frames and total elapsed time `T = 2` (which respects the
frame-duration ordering throughout), two `update_frame 1` calls wrap a full
cycle (frame 0, cycle count 1) while a single `update_frame 2` call only
reaches frame 1 with a carried remainder (cycle count 0). -/
theorem sprite_split_advance_drifts :
    ([(1 : ℚ), 1].foldl SpriteAnimation.update_frame animC2 ≠
      animC2.update_frame ([(1 : ℚ), 1]).sum) ∧
    ([(1 : ℚ), 1].foldl SpriteAnimation.update_frame animC2).curr_frame_idx = 0 ∧
    ([(1 : ℚ), 1].foldl SpriteAnimation.update_frame animC2).curr_cycle_count = 1 ∧
    (animC2.update_frame ([(1 : ℚ), 1]).sum).curr_frame_idx = 1 ∧
    (animC2.update_frame ([(1 : ℚ), 1]).sum).curr_cycle_count = 0 := by
  norm_num [animC2, SpriteAnimation.update_frame, SpriteAnimation.currDuration]

/-- C2 (amended): splitting a total elapsed time `T` into nonnegative steps
agrees with a single `update_frame T` call exactly while at most one frame
transition fires: if `T` keeps the accumulator below the current frame's
duration (no transition), or crosses it with a remainder below the next
frame's duration (one transition), the final frame index, accumulator and
completed-cycle count coincide.  (The original claim fails for larger `T`
because a single call advances at most one frame.) -/
theorem sprite_animation_split_advance :
    ∀ (dts : List ℚ) (a : SpriteAnimation),
      (∀ d ∈ dts, 0 ≤ d) → dts ≠ [] → a.curr_frame_idx < a.frames.length →
      (a.last_transit_dt + dts.sum < a.currDuration ∨
        (a.currDuration ≤ a.last_transit_dt + dts.sum ∧
         a.last_transit_dt + dts.sum - a.currDuration < a.nextDuration)) →
      dts.foldl SpriteAnimation.update_frame a = a.update_frame dts.sum := by
  intro dts
  induction dts with
  | nil => intro a _ hne _ _; exact absurd rfl hne
  | cons d rest ih =>
    intro a hnn _ hidx hcase
    have hd : 0 ≤ d := hnn d (List.mem_cons_self d rest)
    have hrest : ∀ x ∈ rest, 0 ≤ x := fun x hx => hnn x (List.mem_cons_of_mem d hx)
    have hsumrest : 0 ≤ rest.sum := List.sum_nonneg hrest
    rw [List.sum_cons] at hcase ⊢
    by_cases htrig : a.currDuration ≤ a.last_transit_dt + d
    · rcases hcase with h1 | ⟨h2a, h2b⟩
      · exact absurd h1 (by push_neg; linarith)
      by_cases hwrap : a.curr_frame_idx + 1 = a.frames.length
      · have hupd : a.update_frame d =
            { a with last_transit_dt := a.last_transit_dt + d - a.currDuration,
                     curr_frame_idx := 0,
                     curr_cycle_count := a.curr_cycle_count + 1 } := by
          simp only [SpriteAnimation.update_frame]
          rw [if_pos htrig, if_pos hwrap]
        have hnext : a.nextDuration =
            ((a.frames.get? 0).map SpriteFrame.duration).getD 0 := by
          simp [SpriteAnimation.nextDuration, SpriteAnimation.nextFrameIdx, hwrap]
        rw [List.foldl_cons, hupd,
          foldl_update_frame_no_transition rest _ hrest ?nowrap]
        case nowrap =>
          show a.last_transit_dt + d - a.currDuration + rest.sum <
            SpriteAnimation.currDuration _
          have hsame : SpriteAnimation.currDuration
              { a with last_transit_dt := a.last_transit_dt + d - a.currDuration,
                       curr_frame_idx := 0,
                       curr_cycle_count := a.curr_cycle_count + 1 } =
              ((a.frames.get? 0).map SpriteFrame.duration).getD 0 := rfl
          rw [hsame, ← hnext]
          linarith
        have hupd2 : a.update_frame (d + rest.sum) =
            { a with last_transit_dt := a.last_transit_dt + (d + rest.sum) - a.currDuration,
                     curr_frame_idx := 0,
                     curr_cycle_count := a.curr_cycle_count + 1 } := by
          simp only [SpriteAnimation.update_frame]
          rw [if_pos (by linarith), if_pos hwrap]
        rw [hupd2]
        simp only [SpriteAnimation.mk.injEq, and_true, true_and]
        ring
      · have hupd : a.update_frame d =
            { a with last_transit_dt := a.last_transit_dt + d - a.currDuration,
                     curr_frame_idx := a.curr_frame_idx + 1 } := by
          simp only [SpriteAnimation.update_frame]
          rw [if_pos htrig, if_neg hwrap]
        have hnext : a.nextDuration =
            ((a.frames.get? (a.curr_frame_idx + 1)).map SpriteFrame.duration).getD 0 := by
          simp [SpriteAnimation.nextDuration, SpriteAnimation.nextFrameIdx, hwrap]
        rw [List.foldl_cons, hupd,
          foldl_update_frame_no_transition rest _ hrest ?nowrap2]
        case nowrap2 =>
          show a.last_transit_dt + d - a.currDuration + rest.sum <
            SpriteAnimation.currDuration _
          have hsame : SpriteAnimation.currDuration
              { a with last_transit_dt := a.last_transit_dt + d - a.currDuration,
                       curr_frame_idx := a.curr_frame_idx + 1 } =
              ((a.frames.get? (a.curr_frame_idx + 1)).map SpriteFrame.duration).getD 0 := rfl
          rw [hsame, ← hnext]
          linarith
        have hupd2 : a.update_frame (d + rest.sum) =
            { a with last_transit_dt := a.last_transit_dt + (d + rest.sum) - a.currDuration,
                     curr_frame_idx := a.curr_frame_idx + 1 } := by
          simp only [SpriteAnimation.update_frame]
          rw [if_pos (by linarith), if_neg hwrap]
        rw [hupd2]
        simp only [SpriteAnimation.mk.injEq, and_true, true_and]
        ring
    · cases rest with
      | nil => simp
      | cons e rest2 =>
        have hne2 : (e :: rest2) ≠ ([] : List ℚ) := by simp
        have hupd : a.update_frame d =
            { a with last_transit_dt := a.last_transit_dt + d } := by
          simp only [SpriteAnimation.update_frame]
          rw [if_neg htrig]
        have hcurr : SpriteAnimation.currDuration
            { a with last_transit_dt := a.last_transit_dt + d } = a.currDuration := rfl
        have hnextd : SpriteAnimation.nextDuration
            { a with last_transit_dt := a.last_transit_dt + d } = a.nextDuration := rfl
        rw [List.foldl_cons, hupd,
          ih { a with last_transit_dt := a.last_transit_dt + d } hrest hne2
            (by simpa using hidx) ?case2,
          update_frame_add_shift]
        case case2 =>
          rw [hcurr, hnextd]
          show (a.last_transit_dt + d + (e :: rest2).sum < a.currDuration ∨
            (a.currDuration ≤ a.last_transit_dt + d + (e :: rest2).sum ∧
             a.last_transit_dt + d + (e :: rest2).sum - a.currDuration < a.nextDuration))
          rcases hcase with h1 | ⟨h2a, h2b⟩
          · exact Or.inl (by linarith)
          · exact Or.inr ⟨by linarith, by linarith⟩

/-- Witness for C2 (amended) at a concrete animation (two duration-3
frames) and steps `[1, 1]` with total `T = 2` below the current frame's
duration. -/
theorem sprite_animation_split_advance_witness :
    ((∀ d ∈ [(1 : ℚ), 1], 0 ≤ d) ∧ ([(1 : ℚ), 1] ≠ ([] : List ℚ)) ∧
      animC2w.curr_frame_idx < animC2w.frames.length ∧
      animC2w.last_transit_dt + ([(1 : ℚ), 1]).sum < animC2w.currDuration) ∧
    [(1 : ℚ), 1].foldl SpriteAnimation.update_frame animC2w =
      animC2w.update_frame ([(1 : ℚ), 1]).sum :=
  ⟨⟨by norm_num, by simp, by norm_num [animC2w],
    by norm_num [animC2w, SpriteAnimation.currDuration]⟩,
   sprite_animation_split_advance [(1 : ℚ), 1] animC2w (by norm_num) (by simp)
     (by norm_num [animC2w])
     (Or.inl (by norm_num [animC2w, SpriteAnimation.currDuration]))⟩

/-- One iteration of the catch-up loop strictly decreases the number of
whole timesteps left in the lag. -/
theorem catchup_measure_decreases (ts lag : ℚ) (hts : 0 < ts) (hle : ts ≤ lag) :
    (⌊(lag - ts) / ts⌋).toNat < (⌊lag / ts⌋).toNat := by
  have hne : ts ≠ 0 := ne_of_gt hts
  have hdiv : (lag - ts) / ts = lag / ts - 1 := by
    rw [sub_div, div_self hne]
  have hfloor : ⌊(lag - ts) / ts⌋ = ⌊lag / ts⌋ - 1 := by
    rw [hdiv, Int.floor_sub_one]
  have hone : (1 : ℚ) ≤ lag / ts := (one_le_div hts).mpr hle
  have hpos : (1 : ℤ) ≤ ⌊lag / ts⌋ := by
    exact_mod_cast Int.le_floor.mpr (by exact_mod_cast hone)
  rw [hfloor]
  omega

/-- The catch-up loop run from any nonnegative lag lands in `[0, ts)`: it
terminates precisely when the lag has dropped below the timestep, and
subtracting `ts` from a lag that is at least `ts` never goes negative. -/
theorem catchup_bounds (ts : ℚ) (hts : 0 < ts) :
    ∀ lag : ℚ, 0 ≤ lag → 0 ≤ catchup ts lag ∧ catchup ts lag < ts := by
  suffices H : ∀ n : ℕ, ∀ lag : ℚ, (⌊lag / ts⌋).toNat = n → 0 ≤ lag →
      0 ≤ catchup ts lag ∧ catchup ts lag < ts by
    exact fun lag hlag => H _ lag rfl hlag
  intro n
  induction n using Nat.strong_induction_on with
  | _ n ih =>
    intro lag hn hlag
    rw [catchup]
    split
    · next hcond =>
      exact ih _ (hn ▸ catchup_measure_decreases ts lag hts hcond.2) _ rfl
        (by linarith [hcond.2])
    · next hcond =>
      refine ⟨hlag, ?_⟩
      by_contra hge
      exact hcond ⟨hts, by linarith⟩

/-- C8: in every frame-loop iteration with a nonnegative incoming update lag
and a nonnegative wall-clock delta, the interpolation factor
`alpha = update_lag / timestep` computed after the catch-up loop satisfies
`0 ≤ alpha < 1`, and the post-loop lag is again nonnegative and below the
timestep (the loop invariant for the next iteration). -/
theorem frame_alpha_in_unit_interval (ts prevLag loopTime : ℚ)
    (hts : 0 < ts) (hlag : 0 ≤ prevLag) (hloop : 0 ≤ loopTime) :
    0 ≤ frameAlpha ts prevLag loopTime ∧ frameAlpha ts prevLag loopTime < 1 ∧
    0 ≤ catchup ts (prevLag + loopTime) ∧ catchup ts (prevLag + loopTime) < ts := by
  obtain ⟨h0, h1⟩ := catchup_bounds ts hts (prevLag + loopTime) (by linarith)
  refine ⟨?_, ?_, h0, h1⟩
  · exact div_nonneg h0 (le_of_lt hts)
  · rw [frameAlpha, div_lt_one hts]
    exact h1

/-- Witness for C8 with timestep 1, incoming lag 0 and wall-clock delta 2
(two catch-up ticks run; the leftover lag is 0). -/
theorem frame_alpha_in_unit_interval_witness :
    ((0 : ℚ) < 1 ∧ (0 : ℚ) ≤ 0 ∧ (0 : ℚ) ≤ 2) ∧
    (0 ≤ frameAlpha 1 0 2 ∧ frameAlpha 1 0 2 < 1 ∧
     0 ≤ catchup 1 (0 + 2) ∧ catchup 1 (0 + 2) < 1) :=
  ⟨⟨by norm_num, le_refl 0, by norm_num⟩,
   frame_alpha_in_unit_interval 1 0 2 (by norm_num) (le_refl 0) (by norm_num)⟩

/-- `takeWhile` never passes an element that fails the predicate: everything
after the first failing element is dropped, whatever comes before it. -/
theorem takeWhile_stops_at_false (p : GameObject → Bool) :
    ∀ (A : List GameObject) (e : GameObject) (B : List GameObject), p e = false →
      (A ++ e :: B).takeWhile p = A.takeWhile p := by
  intro A
  induction A with
  | nil =>
    intro e B he
    simp [List.takeWhile, he]
  | cons a A ih =>
    intro e B he
    simp only [List.cons_append, List.takeWhile]
    cases p a <;> simp [ih e B he]

/-- C10: in `game_render`'s per-layer loop, the loop condition tests the
current entity's render handle, so the first entity in reverse order with a
null handle stops the whole layer: writing the layer as
`pre ++ e :: post` with `e.glo` null, only a prefix of `post` (the entities
iterated before `e`) is drawn and nothing from `pre` is drawn, even when it
has a render handle. -/
theorem render_layer_stops_at_null_glo (pre post : List GameObject) (e : GameObject)
    (he : e.glo = none) :
    drawnLayer (pre ++ e :: post) = post.reverse.takeWhile (fun o => o.glo.isSome) ∧
    ∀ x ∈ drawnLayer (pre ++ e :: post), x ∈ post := by
  have hrev : (pre ++ e :: post).reverse = post.reverse ++ e :: pre.reverse := by
    simp [List.reverse_append]
  have hdrawn : drawnLayer (pre ++ e :: post) =
      post.reverse.takeWhile (fun o => o.glo.isSome) := by
    rw [drawnLayer, hrev, takeWhile_stops_at_false _ _ _ _ (by simp [he])]
  refine ⟨hdrawn, ?_⟩
  intro x hx
  rw [hdrawn] at hx
  exact List.mem_reverse.mp ((List.takeWhile_sublist _).mem hx)

/-- Witness for C10: the layer `[objC7a, e, objC7b]` with `e.glo` null draws
only `objC7b`; `objC7a` (iterated after `e`) is skipped despite its render
handle. -/
theorem render_layer_stops_at_null_glo_witness :
    (({ tag := "x" } : GameObject).glo = none) ∧
    (drawnLayer ([objC7a] ++ ({ tag := "x" } : GameObject) :: [objC7b]) =
      [objC7b].reverse.takeWhile (fun o => o.glo.isSome) ∧
     ∀ x ∈ drawnLayer ([objC7a] ++ ({ tag := "x" } : GameObject) :: [objC7b]),
       x ∈ [objC7b]) :=
  ⟨rfl, render_layer_stops_at_null_glo [objC7a] [objC7b] { tag := "x" } rfl⟩

/-- `takeWhile` keeps the whole list when every element satisfies the
predicate. -/
theorem takeWhile_eq_self_of_all (p : GameObject → Bool) :
    ∀ l : List GameObject, (∀ x ∈ l, p x = true) → l.takeWhile p = l := by
  intro l
  induction l with
  | nil => intro _; rfl
  | cons a l ih =>
    intro h
    rw [List.takeWhile_cons, h a (List.mem_cons_self a l)]
    simp [ih fun x hx => h x (List.mem_cons_of_mem a hx)]

/-- Reversing a concatenation of reversed layers yields the layers in
reverse order with their elements in original order. -/
theorem reverse_flatten_map_reverse :
    ∀ L : List (List GameObject),
      ((L.map List.reverse).flatten).reverse = L.reverse.flatten := by
  intro L
  induction L with
  | nil => rfl
  | cons l L ih =>
    simp [List.reverse_append, ih]

/-- C7 counterexample: a scene with one background entity and one text
entity, both with render handles.  The update passes visit background before
text, and so does the per-layer render loop — update order is *not* the
reverse of the render order, contradicting the claimed front-to-back
(reverse) iteration. -/
theorem update_order_not_reverse_of_render :
    (∀ obj ∈ updateIterOrder objectsC7, obj.glo.isSome) ∧
    updateIterOrder objectsC7 ≠ (renderDrawOrder objectsC7).reverse := by
  constructor
  · intro obj hobj
    rcases (by simpa [updateIterOrder, ObjectLists.allLists, objectsC7] using hobj :
        obj = objC7a ∨ obj = objC7b) with h | h <;> simp [h, objC7a, objC7b]
  · simp [updateIterOrder, renderDrawOrder, drawnLayer, ObjectLists.allLists, objectsC7,
      objC7a, objC7b, List.takeWhile]

/-- C7 (amended): update and hit-testing traverse the six layers in the
same declaration order as rendering (background, spaceship, projectile,
explosion, gui, text), not in reverse; only *within* each layer does the
render loop iterate in reverse of the update order, so the full
front-to-back entity order is the reversed layer list with each layer in
update order — which differs from the update traversal whenever two
distinct layers are populated. -/
theorem render_and_update_layer_order (o : ObjectLists)
    (hglo : ∀ obj ∈ updateIterOrder o, obj.glo.isSome) :
    renderDrawOrder o = (o.allLists.map List.reverse).flatten ∧
    (renderDrawOrder o).reverse = o.allLists.reverse.flatten ∧
    updateIterOrder o = o.allLists.flatten := by
  have hlayer : ∀ l ∈ o.allLists, drawnLayer l = l.reverse := by
    intro l hl
    rw [drawnLayer]
    apply takeWhile_eq_self_of_all
    intro x hx
    have hxl : x ∈ l := List.mem_reverse.mp hx
    have hxo : x ∈ updateIterOrder o := by
      rw [updateIterOrder]
      exact List.mem_flatten.mpr ⟨l, hl, hxl⟩
    simpa using hglo x hxo
  have hmap : o.allLists.map drawnLayer = o.allLists.map List.reverse :=
    List.map_congr_left hlayer
  refine ⟨by rw [renderDrawOrder, hmap], ?_, rfl⟩
  rw [renderDrawOrder, hmap, reverse_flatten_map_reverse]

/-- Witness for C7 (amended) on the two-entity scene. -/
theorem render_and_update_layer_order_witness :
    (∀ obj ∈ updateIterOrder objectsC7, obj.glo.isSome) ∧
    (renderDrawOrder objectsC7 = (objectsC7.allLists.map List.reverse).flatten ∧
     (renderDrawOrder objectsC7).reverse = objectsC7.allLists.reverse.flatten ∧
     updateIterOrder objectsC7 = objectsC7.allLists.flatten) :=
  ⟨by simp [updateIterOrder, ObjectLists.allLists, objectsC7, objC7a, objC7b],
   render_and_update_layer_order objectsC7
     (by simp [updateIterOrder, ObjectLists.allLists, objectsC7, objC7a, objC7b])⟩


/-- The motion stage changes no optional component. -/
theorem updateObjectMotion_pres (dt : ℚ) (obj : GameObject) :
    (updateObjectMotion dt obj).offscreen_destroy = obj.offscreen_destroy ∧
    (updateObjectMotion dt obj).aabb = obj.aabb := ⟨rfl, rfl⟩

/-- The sprite-animation stage (skipped when the component is absent) leaves
the off-screen-destroy marker and the AABB unchanged. -/
theorem updateObjectSprite_pres (dt : ℚ) (obj : GameObject) :
    (updateObjectSprite dt obj).offscreen_destroy = obj.offscreen_destroy ∧
    (updateObjectSprite dt obj).aabb = obj.aabb := by
  rw [updateObjectSprite]
  cases h : obj.sprite_animation with
  | none => exact ⟨rfl, rfl⟩
  | some an =>
    dsimp only
    split_ifs <;> exact ⟨rfl, rfl⟩

/-- The custom-callback stage (skipped when the component is absent) leaves
the off-screen-destroy marker and the AABB unchanged. -/
theorem updateObjectCustom_pres (env : Env) (time : ℚ) (obj : GameObject) :
    (updateObjectCustom env time obj).offscreen_destroy = obj.offscreen_destroy ∧
    (updateObjectCustom env time obj).aabb = obj.aabb := by
  rw [updateObjectCustom]
  cases h : obj.update with
  | none => exact ⟨rfl, rfl⟩
  | some k =>
    cases k with
    | backgroundBounce =>
      show ((applyUpdateKind env .backgroundBounce obj time).offscreen_destroy = _ ∧ _)
      simp only [applyUpdateKind.eq_def]
      split_ifs <;> exact ⟨rfl, rfl⟩
    | enemySineSweep =>
      exact ⟨rfl, rfl⟩

/-- The off-screen-destroy stage succeeds whenever an entity that carries
the marker also carries an AABB (the data-model invariant); entities without
the marker are simply skipped. -/
theorem updateObjectOffscreen_isSome (env : Env) (screen : Aabb) (obj : GameObject)
    (h : obj.offscreen_destroy.isSome → obj.aabb.isSome) :
    (updateObjectOffscreen env screen obj).isSome := by
  rw [updateObjectOffscreen]
  split
  · next hoff =>
    obtain ⟨box, hbox⟩ := Option.isSome_iff_exists.mp (h hoff)
    simp only [hbox, Option.bind_eq_bind, Option.some_bind]
    split_ifs <;> rfl
  · rfl

/-- One per-entity update never fails when the off-screen-destroy/AABB
invariant holds for the entity: every other optional component is guarded by
a presence check. -/
theorem updateObject_isSome (env : Env) (screen : Aabb) (dt time : ℚ) (obj : GameObject)
    (h : obj.offscreen_destroy.isSome → obj.aabb.isSome) :
    (updateObject env screen dt time obj).isSome := by
  rw [updateObject]
  have hoff : (updateObjectOffscreen env screen
      (updateObjectCustom env time (updateObjectSprite dt (updateObjectMotion dt obj)))).isSome := by
    apply updateObjectOffscreen_isSome
    rw [(updateObjectCustom_pres env time _).1, (updateObjectSprite_pres dt _).1,
      (updateObjectMotion_pres dt obj).1,
      (updateObjectCustom_pres env time _).2, (updateObjectSprite_pres dt _).2,
      (updateObjectMotion_pres dt obj).2]
    exact h
  obtain ⟨v, hv⟩ := Option.isSome_iff_exists.mp hoff
  rw [hv]
  rfl

/-- `mapM` over `Option` succeeds when every element does. -/
theorem mapM_isSome (f : GameObject → Option GameObject) :
    ∀ l : List GameObject, (∀ x ∈ l, (f x).isSome) → (l.mapM f).isSome := by
  intro l
  induction l with
  | nil => intro _; rfl
  | cons a l ih =>
    intro h
    obtain ⟨b, hb⟩ := Option.isSome_iff_exists.mp (h a (List.mem_cons_self a l))
    obtain ⟨bs, hbs⟩ := Option.isSome_iff_exists.mp
      (ih fun x hx => h x (List.mem_cons_of_mem a hx))
    rw [List.mapM_cons, hb, hbs]
    rfl

/-- `mapLayersM` succeeds when the per-layer transformation succeeds on all
six layers. -/
theorem mapLayersM_isSome (f : List GameObject → Option (List GameObject)) (o : ObjectLists)
    (h : ∀ l ∈ o.allLists, (f l).isSome) : (o.mapLayersM f).isSome := by
  obtain ⟨bg, hbg⟩ := Option.isSome_iff_exists.mp (h o.background (by simp [ObjectLists.allLists]))
  obtain ⟨ss, hss⟩ := Option.isSome_iff_exists.mp (h o.spaceship (by simp [ObjectLists.allLists]))
  obtain ⟨pr, hpr⟩ := Option.isSome_iff_exists.mp (h o.projectile (by simp [ObjectLists.allLists]))
  obtain ⟨ex, hex⟩ := Option.isSome_iff_exists.mp (h o.explosion (by simp [ObjectLists.allLists]))
  obtain ⟨gu, hgu⟩ := Option.isSome_iff_exists.mp (h o.gui (by simp [ObjectLists.allLists]))
  obtain ⟨tx, htx⟩ := Option.isSome_iff_exists.mp (h o.text (by simp [ObjectLists.allLists]))
  simp [ObjectLists.mapLayersM, hbg, hss, hpr, hex, hgu, htx]

/-- C4 (amended): within the per-entity update pass of `game_update`, absent
optional components are indeed skipped and no entity update can fail, for
every scene satisfying the data-model invariant that an entity with the
off-screen-destroy marker carries a bounding box.  (The collision passes are
the exception — they dereference the AABB and health optionals without a
presence check, so a tick in which a projectile overlaps a health-less
spaceship is undefined instead of completing with the decrement skipped;
see the counterexample.) -/
theorem per_entity_update_skips_absent (env : Env) (g : Game) (dt time : ℚ)
    (h : ∀ obj ∈ updateIterOrder g.scene.objects,
      obj.offscreen_destroy.isSome → obj.aabb.isSome) :
    (updateAllObjects env g dt time).isSome := by
  have hmap : (g.scene.objects.mapLayersM
      (fun l => l.mapM (updateObject env g.screen_aabb dt time))).isSome := by
    apply mapLayersM_isSome
    intro l hl
    apply mapM_isSome
    intro x hx
    apply updateObject_isSome
    exact h x (by rw [updateIterOrder]; exact List.mem_flatten.mpr ⟨l, hl, hx⟩)
  obtain ⟨o', ho'⟩ := Option.isSome_iff_exists.mp hmap
  have hdef : updateAllObjects env g dt time =
      ((g.scene.objects.mapLayersM
          (fun l => l.mapM (updateObject env g.screen_aabb dt time))).bind
        fun objects => some { g with scene := { objects := objects } }) := rfl
  rw [hdef, ho']
  rfl

/-- Witness for C4 (amended) on the end-to-end scenario scene. -/
theorem per_entity_update_skips_absent_witness :
    (∀ obj ∈ updateIterOrder gameC1.scene.objects,
      obj.offscreen_destroy.isSome → obj.aabb.isSome) ∧
    (updateAllObjects envRot0 gameC1 (1/100) 0).isSome :=
  ⟨by simp [updateIterOrder, ObjectLists.allLists, gameC1, playerC1, enemyC1, projC1],
   per_entity_update_skips_absent envRot0 gameC1 (1/100) 0
     (by simp [updateIterOrder, ObjectLists.allLists, gameC1, playerC1, enemyC1, projC1])⟩

/-- C4 counterexample: in the end-to-end scenario with the enemy's health
component removed, the tick does not complete normally — the collision pass
dereferences the absent health optional (C++ undefined behaviour, modelled
as `none`) instead of skipping the decrement. -/
theorem game_update_health_deref_fails :
    game_update envRot0 gameC4 (1/100) 0 = none := by
  norm_num [game_update, updateTimedActions, updateTimedActions.go, eraseSweep, cursorPicking,
    cursorNormalized, updateAllObjects, updateObject, updateObjectMotion, updateObjectSprite,
    updateObjectCustom, updateObjectOffscreen, updateObjectScreenBound, ObjectLists.mapLayers,
    ObjectLists.mapLayersM, ObjectLists.allLists, projectileSpaceshipPass, projectileHit,
    playerEnemyPass, create_explosion, Game.pushExplosion, Game.setProjectile, Game.setSpaceship,
    collision, Aabb.transform, Transform.applyPoint, Vec2.add, Vec2.smul, Vec2.cmin, Vec2.cmax,
    shouldErase, sentinelTransform, gameC4, gameC1, playerC1, enemyC1, projC1, envRot0,
    List.foldlM, List.mapM, List.mapM.loop, List.range, List.range.loop, List.set,
    SpriteAnimation.update_frame, SpriteAnimation.expired, SpriteAnimation.currDuration,
    TimedAction.update]

/-- C1: one `game_update` tick of the end-to-end scenario — player at
(0,-0.7), projectile spawned on top of the enemy at (0,+0.5), any
environment whose degree-trigonometry is exact at the only rotation in the
scene (0) — produces exactly the expected state: the projectile is marked
for sound-gated delayed erasure and teleported to the sentinel position
(1000,1000), a new explosion entity sits in the explosion layer at the
projectile's pre-collision position (0, 0.5 + 2.6·dt) = (0, 263/500), and
the enemy's health has decremented by exactly 1 (10 to 9). -/
theorem game_update_projectile_hit_scenario (env : Env)
    (h1 : env.cosd 0 = 1) (h2 : env.sind 0 = 0) :
    game_update env gameC1 (1/100) 0 = some gameC1final ∧
    gameC1final.scene.objects.projectile.map
      (fun p => (p.delay_erasing, p.transform.position)) =
      [(some { sound := true }, ⟨1000, 1000⟩)] ∧
    gameC1final.scene.objects.explosion.map (fun e => e.transform.position) =
      [⟨0, 263/500⟩] ∧
    gameC1final.scene.objects.spaceship.map (fun s => s.health) =
      [none, some ⟨9⟩] := by
  refine ⟨?_, rfl, rfl, rfl⟩
  norm_num [game_update, updateTimedActions, updateTimedActions.go, eraseSweep, cursorPicking,
    cursorNormalized, updateAllObjects, updateObject, updateObjectMotion, updateObjectSprite,
    updateObjectCustom, updateObjectOffscreen, updateObjectScreenBound, ObjectLists.mapLayers,
    ObjectLists.mapLayersM, ObjectLists.allLists, projectileSpaceshipPass, projectileHit,
    playerEnemyPass, create_explosion, Game.pushExplosion, Game.setProjectile, Game.setSpaceship,
    collision, Aabb.transform, Transform.applyPoint, Vec2.add, Vec2.smul, Vec2.cmin, Vec2.cmax,
    shouldErase, sentinelTransform, gameC1, playerC1, enemyC1, projC1, gameC1final, explC1,
    h1, h2, List.foldlM, List.mapM, List.mapM.loop, List.range, List.range.loop, List.set,
    SpriteAnimation.update_frame, SpriteAnimation.expired, SpriteAnimation.currDuration,
    TimedAction.update]

/-- Witness for C1 at the rotation-0 environment. -/
theorem game_update_projectile_hit_scenario_witness :
    envRot0.cosd 0 = 1 ∧ envRot0.sind 0 = 0 ∧
    (game_update envRot0 gameC1 (1/100) 0 = some gameC1final ∧
     gameC1final.scene.objects.projectile.map
       (fun p => (p.delay_erasing, p.transform.position)) =
       [(some { sound := true }, ⟨1000, 1000⟩)] ∧
     gameC1final.scene.objects.explosion.map (fun e => e.transform.position) =
       [⟨0, 263/500⟩] ∧
     gameC1final.scene.objects.spaceship.map (fun s => s.health) =
       [none, some ⟨9⟩]) :=
  ⟨rfl, rfl, game_update_projectile_hit_scenario envRot0 rfl rfl⟩

set_option maxHeartbeats 8000000 in
/-- C9: the collision passes of `game_update` dereference the optional AABB
of every projectile, every non-player spaceship and the player without a
presence check: removing the AABB from the enemy, from the projectile, or
from the player (in an otherwise ordinary, collision-free tick) each makes
the tick undefined, while the identical scene with every AABB present
completes — the per-tick preconditions the spec never states. -/
theorem game_update_aabb_preconditions :
    game_update envRot0 gameC9enemyNoAabb (1/100) 0 = none ∧
    game_update envRot0 gameC9projNoAabb (1/100) 0 = none ∧
    game_update envRot0 gameC9playerNoAabb (1/100) 0 = none ∧
    (game_update envRot0 gameC9allAabbs (1/100) 0).isSome := by
  refine ⟨?_, ?_, ?_, ?_⟩ <;>
  norm_num [game_update, updateTimedActions, updateTimedActions.go, eraseSweep, cursorPicking,
    cursorNormalized, updateAllObjects, updateObject, updateObjectMotion, updateObjectSprite,
    updateObjectCustom, updateObjectOffscreen, updateObjectScreenBound, ObjectLists.mapLayers,
    ObjectLists.mapLayersM, ObjectLists.allLists, projectileSpaceshipPass, projectileHit,
    playerEnemyPass, create_explosion, Game.pushExplosion, Game.setProjectile, Game.setSpaceship,
    collision, Aabb.transform, Transform.applyPoint, Vec2.add, Vec2.smul, Vec2.cmin, Vec2.cmax,
    shouldErase, sentinelTransform, gameC9enemyNoAabb, gameC9projNoAabb, gameC9playerNoAabb,
    gameC9allAabbs, projC9far, gameC1, playerC1, enemyC1, projC1, envRot0,
    List.foldlM, List.mapM, List.mapM.loop, List.range, List.range.loop, List.set,
    SpriteAnimation.update_frame, SpriteAnimation.expired, SpriteAnimation.currDuration,
    TimedAction.update]

end DearEngine
